import Mathlib

/-!
Shallow embedding of the ai-chatbot-toolbox application (src/app.py) and
verification of its specification claims.

Python strings are modelled as lists of characters (`PyStr`); Python `None`
for an optional string is `Option PyStr`; network calls are modelled as
explicit function parameters so that the pure decision logic of the source
can be stated and proved.  All definitions are transcribed from src/app.py
unless their doc comment says otherwise.
-/

/-- Python strings, modelled as lists of characters. -/
abbrev PyStr := List Char

/-- Lower-casing a string (Python `str.lower` restricted to ASCII, which is
all the source ever compares). -/
def pyLower (s : PyStr) : PyStr := s.map Char.toLower

/-- Case-insensitive substring containment: Python `needle.lower() in hay.lower()`. -/
def substrCI (needle hay : PyStr) : Prop := pyLower needle <:+: pyLower hay

instance (needle hay : PyStr) : Decidable (substrCI needle hay) := by
  unfold substrCI; exact List.decidableInfix _ _

/-- Python truthiness of an optional string: `None` and `""` are falsy. -/
def pyTruthy : Option PyStr → Bool
  | none => false
  | some s => !s.isEmpty

/-- Python `str.strip()`: drop whitespace from both ends. -/
def pyStrip (s : PyStr) : PyStr :=
  ((s.dropWhile Char.isWhitespace).reverse.dropWhile Char.isWhitespace).reverse

/-- Python `sep.join(parts)`: parts interleaved with the separator. -/
def pyJoin (sep : PyStr) : List PyStr → PyStr
  | [] => []
  | [x] => x
  | x :: y :: xs => x ++ sep ++ pyJoin sep (y :: xs)

/-- Message roles used by the application. -/
inductive Role where
  | system
  | user
  | assistant
deriving DecidableEq, Repr

/-- A chat message: `{"role": ..., "content": ...}` in the source. -/
structure Message where
  role : Role
  content : PyStr
deriving DecidableEq, Repr

/-! ## Conversation persistence (src/app.py lines 30-43, 142-145, 185-190) -/

/-- The persisted chat-memory file, modelled at the level of its parsed JSON
value: `none` when `chat_memory.json` does not exist, `some h` when it holds
the serialized message list `h`. -/
abbrev Store := Option (List Message)

/-- `load_memory` (src/app.py lines 35-39): return the parsed file content,
or `[]` when the file does not exist. -/
def load_memory (st : Store) : List Message := st.getD []

/-- `save_memory` (src/app.py lines 41-43): overwrite the whole file with
the serialized history, regardless of previous content. -/
def save_memory (h : List Message) (_st : Store) : Store := some h

/-- The default system message seeded at session start (src/app.py line 189). -/
def INIT_SYSTEM : Message :=
  ⟨Role.system, "You are a smart AI assistant with access to documents, Wikipedia, and real-time news. You handle questions like who, what, when, how many, how long, tell me how, tell me why, etc.".data⟩

/-- Session-start load (src/app.py lines 185-190): read the persisted store
via `load_memory`; when the result is empty, seed a fresh conversation with
the single default system message. -/
def sessionLoad (st : Store) : List Message :=
  let h := load_memory st
  if h.isEmpty then [INIT_SYSTEM] else h

/-- The Clear Chat History button (src/app.py lines 142-145): set the
in-memory history to `[]` and persist `[]`; returns the new in-memory
conversation and the new store. -/
def clearChat (st : Store) : List Message × Store :=
  ([], save_memory [] st)

/-- Appending one message to the in-memory history
(src/app.py lines 198 and 220). -/
def appendMsg (h : List Message) (m : Message) : List Message := h ++ [m]

/-- The Conversation invariant from the spec: non-empty and the first
element has role `system`. -/
def convInvariant (h : List Message) : Prop :=
  h ≠ [] ∧ h.head?.map Message.role = some Role.system

instance (h : List Message) : Decidable (convInvariant h) := by
  unfold convInvariant; exact instDecidableAnd

/-! ## Answer generator `ask_groq` (src/app.py lines 100-117) -/

/-- `MAX_DOC_CHARS` (src/app.py line 30): the character budget for context. -/
def MAX_DOC_CHARS : Nat := 5000

/-- The fixed system instruction of `ask_groq` (src/app.py line 102). -/
def ASK_SYSTEM_PROMPT : PyStr :=
  "You are a helpful assistant that answers based on relevant documents, Wikipedia, and news sources. Do not mix unrelated sources.".data

/-- The sentinel failure string returned by `ask_groq` on any failure
(src/app.py line 117). -/
def SENTINEL : PyStr := "⚠️ No response".data

/-- Header text preceding the context inside the user message
(src/app.py line 105). -/
def CTX_HDR : PyStr := "Context:\n".data

/-- Separator between the truncated context and the question
(src/app.py line 105). -/
def CTX_Q_SEP : PyStr := "\n\nQuestion: ".data

/-- The message list `ask_groq` builds (src/app.py lines 101-107): a fixed
system instruction, then one user message; when the context is truthy the
user message embeds `context[:MAX_DOC_CHARS]` between the header and the
question, otherwise it is the bare question. -/
def askGroqMessages (question : PyStr) (context : Option PyStr) : List Message :=
  let base := [⟨Role.system, ASK_SYSTEM_PROMPT⟩]
  if pyTruthy context then
    base ++ [⟨Role.user, CTX_HDR ++ (context.getD []).take MAX_DOC_CHARS ++ CTX_Q_SEP ++ question⟩]
  else
    base ++ [⟨Role.user, question⟩]

/-- A JSON value, for the generation backend's response body. -/
inductive Json where
  | str (s : PyStr)
  | num (n : Int)
  | arr (xs : List Json)
  | obj (fields : List (PyStr × Json))

/-- Object field lookup, Python `j[key]` on a dict (first matching key). -/
def Json.getField : Json → PyStr → Option Json
  | .obj fs, k => (fs.find? (fun p => p.1 == k)).map (fun p => p.2)
  | _, _ => none

/-- Array indexing, Python `j[i]` on a list. -/
def Json.getIdx : Json → Nat → Option Json
  | .arr xs, i => xs.get? i
  | _, _ => none

/-- The extraction `res.json()["choices"][0]["message"]["content"]`
(src/app.py line 115); `none` models any KeyError/IndexError, i.e. a parse
failure.  Per the backend contract the content at this path is the generated
text, a JSON string. -/
def extractContent (j : Json) : Option PyStr := do
  let c ← j.getField "choices".data
  let c0 ← c.getIdx 0
  let m ← c0.getField "message".data
  let ct ← m.getField "content".data
  match ct with
  | .str s => some s
  | _ => none

/-- `ask_groq` (src/app.py lines 100-117).  The outbound HTTP call is the
parameter `backend`: `.error` models a transport failure or an unparsable
body (a `requests` or `json` exception), `.ok j` a parsed JSON response.
The whole call-and-extract is wrapped in try/except returning the sentinel. -/
def ask_groq (backend : List Message → Except Unit Json)
    (question : PyStr) (context : Option PyStr) : PyStr :=
  match backend (askGroqMessages question context) with
  | .error _ => SENTINEL
  | .ok j => (extractContent j).getD SENTINEL

/-! ## Encyclopedia provider `get_wikipedia_summary` (src/app.py lines 45-57) -/

/-- `re.sub(r'[^a-zA-Z0-9 ]', '', query).strip()` (src/app.py line 47):
keep ASCII alphanumerics and spaces, then strip. -/
def cleanQuery (q : PyStr) : PyStr :=
  pyStrip (q.filter (fun c => c.isAlphanum || c == ' '))

/-- `title.replace(" ", "_")` (src/app.py line 52). -/
def underscoreTitle (t : PyStr) : PyStr :=
  t.map (fun c => if c == ' ' then '_' else c)

/-- `get_wikipedia_summary` (src/app.py lines 45-57).  The two HTTP calls are
parameters: `search` returns the list of search-hit titles (`none` models a
raised exception, caught by the enclosing try), `fetchSummary` returns the
HTTP status and the optional `extract` field of the summary response
(`none` again a raised exception).  Zero hits return `none`; a non-200
summary status returns `none`; on 200 the `extract` field is returned,
defaulting to the empty string (`res.json().get("extract", "")`). -/
def get_wikipedia_summary (search : PyStr → Option (List PyStr))
    (fetchSummary : PyStr → Option (Nat × Option PyStr)) (query : PyStr) :
    Option PyStr :=
  match search (cleanQuery query) with
  | none => none
  | some [] => none
  | some (t :: _) =>
    match fetchSummary (underscoreTitle t) with
    | none => none
    | some (status, ext) => if status == 200 then some (ext.getD []) else none

/-- The titles for which `get_wikipedia_summary` issues a summary fetch,
read off the control flow of src/app.py lines 49-55: exactly one fetch, for
the top search hit's title with spaces replaced by underscores, and none
when the search yields no hits. -/
def wikiFetchedTitles (search : PyStr → Option (List PyStr)) (query : PyStr) :
    List PyStr :=
  match search (cleanQuery query) with
  | some (t :: _) => [underscoreTitle t]
  | _ => []

/-- Modelled from the spec: the secondary fallback title the spec describes,
derived by lower-casing and underscoring the cleaned query.  No such
fallback occurs in src/app.py; this definition exists to state the claim
that it would be tried. -/
def specFallbackTitle (query : PyStr) : PyStr :=
  underscoreTitle (pyLower (cleanQuery query))

/-- A concrete search backend for the C7 counterexample: every search
returns the single hit title "Something Else". -/
def c7search : PyStr → Option (List PyStr) := fun _ => some ["Something Else".data]

/-- A concrete summary backend for the C7 counterexample: fetching the
spec's fallback title "what_is_love" would succeed with status 200, while
every other title (in particular the top hit "Something_Else") returns 404. -/
def c7fetch : PyStr → Option (Nat × Option PyStr) := fun t =>
  if t == "what_is_love".data then some (200, some "Love is a feeling.".data)
  else some (404, none)

/-! ## Chatbot context assembly (src/app.py lines 200-217) -/

/-- Label of the Wikipedia block (src/app.py line 209). -/
def WIKI_LABEL : PyStr := "📚 Wikipedia:\n".data

/-- Label of the news block (src/app.py line 211). -/
def NEWS_LABEL : PyStr := "📡 NewsAPI:\n".data

/-- Label of the web-search block (src/app.py line 213). -/
def SERPER_LABEL : PyStr := "🌐 Serper:\n".data

/-- Label of the document block (src/app.py line 215). -/
def DOC_LABEL : PyStr := "📄 Document match:\n".data

/-- The `\n\n` separator closing the first three blocks. -/
def NL2 : PyStr := "\n\n".data

/-- `get_all_documents` (src/app.py lines 119-128), modelled over the list
of extracted texts of the stored documents (file reading and PDF text
extraction are the external Source Extractor): each document's text is
appended to the accumulator followed by a newline. -/
def get_all_documents (texts : List PyStr) : PyStr :=
  texts.foldl (fun acc t => acc ++ t ++ ['\n']) []

/-- The first three steps of the chatbot's `combined_context` build
(src/app.py lines 207-213): append the labeled Wikipedia, NewsAPI and
Serper blocks, in that textual order, skipping falsy results. -/
def chatbotWNS (wiki news serper : Option PyStr) : PyStr :=
  let c0 : PyStr := []
  let c1 := if pyTruthy wiki then c0 ++ WIKI_LABEL ++ wiki.getD [] ++ NL2 else c0
  let c2 := if pyTruthy news then c1 ++ NEWS_LABEL ++ news.getD [] ++ NL2 else c1
  if pyTruthy serper then c2 ++ SERPER_LABEL ++ serper.getD [] ++ NL2 else c2

/-- The full `combined_context` (src/app.py lines 207-215): after the three
provider blocks, the document block is appended iff the translated query
occurs case-insensitively in the concatenation of all stored documents
(`translated.lower() in docs.lower()`), and then carries that whole
concatenation. -/
def chatbotCombined (wiki news serper : Option PyStr)
    (translated docsAll : PyStr) : PyStr :=
  let c3 := chatbotWNS wiki news serper
  if substrCI translated docsAll then c3 ++ DOC_LABEL ++ docsAll else c3

/-- Modelled from the spec's words (§4.1 Policy B), for the refinement
claim C2: the AssembledContext is the concatenation of the present labeled
blocks, in the fixed order they are listed, skipping absent ones. -/
def concatBlocks (bs : List (Option PyStr)) : PyStr :=
  (bs.filterMap id).foldl (· ++ ·) []

/-! ## Policy A (classify-then-branch) -/

/-- Tag for the knowledge providers, to record which were consulted. -/
inductive Provider where
  | encyclopedia
  | news
  | web
  | documents
deriving DecidableEq, Repr

/-- Modelled from the spec: the fixed lexical cues of §4.1 Policy A that
classify a query as informational.  Policy A belongs to an iteration of the
application that is not under src/ (src/app.py implements only Policy B). -/
def INFORMATIONAL_CUES : List PyStr :=
  ["what is".data, "who is".data, "explain".data, "history of".data, "when did".data]

/-- Modelled from the spec: a query is informational when it contains one of
the fixed cues as a case-insensitive substring. -/
def isInformational (q : PyStr) : Bool :=
  INFORMATIONAL_CUES.any (fun cue => decide (substrCI cue q))

/-- Modelled from the spec: Policy A (classify-then-branch, §4.1), absent
from src/.  If the query is informational, consult the encyclopedia
provider only; otherwise consult news and, only when news is absent, fall
back to web search.  Returns the assembled context and the list of
providers consulted. -/
def policyA (wiki news web : PyStr → Option PyStr) (q : PyStr) :
    Option PyStr × List Provider :=
  if isInformational q then (wiki q, [Provider.encyclopedia])
  else
    match news q with
    | some n => (some n, [Provider.news])
    | none => (web q, [Provider.news, Provider.web])

/-! ## Document Q&A keyword matching (src/app.py lines 162-178)

The source matches documents with `re.search(translated[:40], text,
re.IGNORECASE)`: the first 40 characters of the query are interpreted as a
regular expression, not as a literal substring.  The fragment of Python
regex semantics this needs is modelled below: literal characters plus the
`.` wildcard; patterns using any other metacharacter fall outside the
fragment (Python would either give them structural meaning or raise
`re.error`, which this code path does not catch). -/

/-- A token of the modelled regex fragment: a literal character or the `.`
wildcard. -/
inductive RTok where
  | lit (c : Char)
  | dot
deriving DecidableEq, Repr

/-- The Python regular-expression metacharacters. -/
def REGEX_META : List Char :=
  ['.', '^', '$', '*', '+', '?', '\x7b', '\x7d', '[', ']', '\\', '|', '(', ')']

/-- Compile a pattern string into tokens of the modelled fragment: `.`
becomes the wildcard, a non-metacharacter matches itself literally; a
pattern using any other metacharacter is outside the fragment (`none`). -/
def compilePattern (p : PyStr) : Option (List RTok) :=
  if p.all (fun c => c == '.' || !(REGEX_META.contains c)) then
    some (p.map (fun c => if c == '.' then RTok.dot else RTok.lit c))
  else none

/-- Match the token list at the start of the text, with `re.IGNORECASE`:
literals compare case-folded, `.` matches any character except newline. -/
def rmatchHere : List RTok → List Char → Bool
  | [], _ => true
  | _ :: _, [] => false
  | RTok.lit c :: ps, x :: xs => (Char.toLower x == Char.toLower c) && rmatchHere ps xs
  | RTok.dot :: ps, x :: xs => (x != '\n') && rmatchHere ps xs

/-- `re.search`: match the token list at some position of the text. -/
def rsearch (p : List RTok) : List Char → Bool
  | [] => rmatchHere p []
  | x :: xs => rmatchHere p (x :: xs) || rsearch p xs

/-- The Document Q&A "All" branch (src/app.py lines 172-175): keep the
stored documents (name, extracted text) whose full text
`re.search(translated[:40], text, re.IGNORECASE)` matches, and join the
kept full texts with blank lines; `none` models the uncaught `re.error` on
a pattern outside the modelled fragment. -/
def docQAContextAll (translated : PyStr) (docs : List (PyStr × PyStr)) :
    Option PyStr :=
  match compilePattern (translated.take 40) with
  | none => none
  | some toks =>
    some (pyJoin NL2 ((docs.filter (fun d => rsearch toks d.2)).map (fun d => d.2)))

/-! ## Claim theorems: C1, C6, C9 -/

/-- C1: for every question and context, the context text embedded in the user
message `ask_groq` sends is `context[:MAX_DOC_CHARS]`: a prefix of the
supplied context of length at most the 5000-character budget.  Truncation,
never an error: `askGroqMessages` is a total function. -/
theorem c1_context_budget (q : PyStr) (ctx : Option PyStr)
    (h : pyTruthy ctx = true) :
    askGroqMessages q ctx =
      [⟨Role.system, ASK_SYSTEM_PROMPT⟩,
       ⟨Role.user, CTX_HDR ++ (ctx.getD []).take MAX_DOC_CHARS ++ CTX_Q_SEP ++ q⟩] ∧
    ((ctx.getD []).take MAX_DOC_CHARS).length ≤ MAX_DOC_CHARS ∧
    (ctx.getD []).take MAX_DOC_CHARS <+: ctx.getD [] := by
  refine ⟨?_, ?_, ?_⟩
  · simp [askGroqMessages, h]
  · simp [List.length_take]
  · exact List.take_prefix _ _

theorem c1_context_budget_witness :
    pyTruthy (some ['a', 'b']) = true ∧
    (askGroqMessages ['q'] (some ['a', 'b']) =
      [⟨Role.system, ASK_SYSTEM_PROMPT⟩,
       ⟨Role.user, CTX_HDR ++ (['a', 'b'] : PyStr).take MAX_DOC_CHARS ++ CTX_Q_SEP ++ ['q']⟩] ∧
     ((['a', 'b'] : PyStr).take MAX_DOC_CHARS).length ≤ MAX_DOC_CHARS ∧
     (['a', 'b'] : PyStr).take MAX_DOC_CHARS <+: (['a', 'b'] : PyStr)) :=
  ⟨rfl, c1_context_budget ['q'] (some ['a', 'b']) rfl⟩

/-- C6: `ask_groq` never raises: it is a total function that returns the
extracted generated text when the backend call succeeds and the response
parses, and the fixed sentinel string on any transport or parse failure. -/
theorem c6_never_raises (backend : List Message → Except Unit Json)
    (q : PyStr) (ctx : Option PyStr) :
    (∃ j t, backend (askGroqMessages q ctx) = Except.ok j ∧
        extractContent j = some t ∧ ask_groq backend q ctx = t) ∨
    ask_groq backend q ctx = SENTINEL := by
  unfold ask_groq
  cases hb : backend (askGroqMessages q ctx) with
  | error e => right; rfl
  | ok j =>
    cases he : extractContent j with
    | none => right; simp [he]
    | some t => left; exact ⟨j, t, rfl, he, by simp [he]⟩

/-- C9: `save_memory` is idempotent on the store and round-trips with
`load_memory`: saving the same history twice leaves the same stored state
as saving it once, and loading that state returns exactly that history. -/
theorem c9_persist_idempotent_roundtrip (st : Store) (h : List Message) :
    save_memory h (save_memory h st) = save_memory h st ∧
    load_memory (save_memory h (save_memory h st)) = h := by
  constructor
  · rfl
  · rfl

/-! ## Claim theorems: C4, C5 (conversation state and clear) -/

/-- C4 counterexample: the Clear Chat History handler does not reset the
in-memory Conversation to a single fresh system Message, and does not
persist such a reset: it sets the history to `[]` and persists `[]`, so the
in-memory conversation after `clear` has length 0, not 1, and the raw
`load_memory` of the cleared store returns the empty list. -/
theorem c4_counterexample :
    (clearChat (some [INIT_SYSTEM])).1 = [] ∧
    (clearChat (some [INIT_SYSTEM])).1.length ≠ 1 ∧
    (clearChat (some [INIT_SYSTEM])).2 = some [] ∧
    load_memory (clearChat (some [INIT_SYSTEM])).2 = [] := by
  refine ⟨rfl, by decide, rfl, rfl⟩

/-- C4 amended: `clear` resets the in-memory Conversation to the empty list
and persists the empty list; the session-start load, finding the persisted
store empty, seeds a fresh Conversation with a single default system
Message — so `clear()` followed by the session-start `load()` yields a
Conversation of exactly one Message whose role is system. -/
theorem c4_clear_then_load (st : Store) :
    (clearChat st).1 = [] ∧
    (clearChat st).2 = some [] ∧
    sessionLoad (clearChat st).2 = [INIT_SYSTEM] ∧
    (sessionLoad (clearChat st).2).length = 1 ∧
    (sessionLoad (clearChat st).2).head?.map Message.role = some Role.system := by
  refine ⟨rfl, rfl, rfl, rfl, rfl⟩

/-- C5 counterexample: `clear` does not preserve the Conversation invariant.
Starting from a session satisfying the invariant, pressing Clear Chat
History leaves the empty in-memory conversation, which violates it; the
next user turn is then appended to the empty history, producing a
conversation whose first element has role `user`, not `system`. -/
theorem c5_counterexample :
    convInvariant (sessionLoad (some [INIT_SYSTEM])) ∧
    ¬ convInvariant (clearChat (some [INIT_SYSTEM])).1 ∧
    (appendMsg (clearChat (some [INIT_SYSTEM])).1 ⟨Role.user, ['h', 'i']⟩).head?.map
        Message.role = some Role.user ∧
    ¬ convInvariant (appendMsg (clearChat (some [INIT_SYSTEM])).1 ⟨Role.user, ['h', 'i']⟩) := by
  refine ⟨⟨by decide, rfl⟩, by decide, rfl, ?_⟩
  intro hinv
  exact absurd hinv.2 (by decide)

/-- C5 amended: the invariant (non-empty, first message role `system`) is
established at session start whenever the persisted store is absent or
empty, or the stored history itself satisfies it, and it is preserved by
appending a user turn and by appending the assistant reply; `clear` does
not preserve it (it resets the Conversation to the empty sequence, see the
counterexample). -/
theorem c5_invariant (st : Store) (h : List Message) (m : Message) :
    (load_memory st = [] → convInvariant (sessionLoad st)) ∧
    (convInvariant (load_memory st) → convInvariant (sessionLoad st)) ∧
    (convInvariant h → convInvariant (appendMsg h m)) := by
  refine ⟨?_, ?_, ?_⟩
  · intro hempty
    unfold sessionLoad
    simp [hempty]
    exact ⟨by decide, rfl⟩
  · intro hinv
    unfold sessionLoad
    have hne : ¬ (load_memory st).isEmpty := by
      cases hl : load_memory st with
      | nil => exact absurd hl hinv.1
      | cons a t => simp
    simp [hne]
    exact hinv
  · intro hinv
    cases hl : h with
    | nil => exact absurd hl hinv.1
    | cons a t =>
      refine ⟨by simp [appendMsg], ?_⟩
      have := hinv.2
      rw [hl] at this
      simpa [appendMsg] using this

theorem c5_invariant_witness :
    (load_memory (none : Store) = [] ∧ convInvariant (sessionLoad (none : Store))) ∧
    (convInvariant (load_memory (some [INIT_SYSTEM])) ∧
      convInvariant (sessionLoad (some [INIT_SYSTEM]))) ∧
    (convInvariant [INIT_SYSTEM] ∧
      convInvariant (appendMsg [INIT_SYSTEM] ⟨Role.user, ['h', 'i']⟩)) :=
  ⟨⟨rfl, (c5_invariant none [] ⟨Role.user, []⟩).1 rfl⟩,
   ⟨⟨by decide, rfl⟩,
    (c5_invariant (some [INIT_SYSTEM]) [] ⟨Role.user, []⟩).2.1 ⟨by decide, rfl⟩⟩,
   ⟨⟨by decide, rfl⟩,
    (c5_invariant none [INIT_SYSTEM] ⟨Role.user, ['h', 'i']⟩).2.2 ⟨by decide, rfl⟩⟩⟩

/-! ## Claim theorems: C7 (encyclopedia provider) -/

/-- C7 counterexample: `get_wikipedia_summary` never tries a secondary
fallback title.  With a search that returns the hit "Something Else" and a
summary backend on which the spec's fallback title "what_is_love" would
succeed (status 200) while the top hit's title gets 404, the provider
returns absent, and the only title it ever fetched is "Something_Else" —
the fallback title is not among the fetched titles, even though fetching it
would have produced a summary. -/
theorem c7_counterexample :
    get_wikipedia_summary c7search c7fetch "what is love".data = none ∧
    wikiFetchedTitles c7search "what is love".data = ["Something_Else".data] ∧
    specFallbackTitle "what is love".data = "what_is_love".data ∧
    c7fetch (specFallbackTitle "what is love".data) =
      some (200, some "Love is a feeling.".data) ∧
    "what_is_love".data ∉ wikiFetchedTitles c7search "what is love".data := by
  refine ⟨by decide, by decide, by decide, by decide, by decide⟩

/-- C7 amended: the encyclopedia provider returns an absent result when the
keyword search raises or yields zero hits, and when the summary fetch
raises or returns a non-200 status; it issues exactly one summary fetch,
for the top hit's title with spaces replaced by underscores, and gives up
without trying any secondary fallback title. -/
theorem c7_wiki_absent (search : PyStr → Option (List PyStr))
    (fetch : PyStr → Option (Nat × Option PyStr)) (q : PyStr) :
    ((search (cleanQuery q) = none ∨ search (cleanQuery q) = some []) →
        get_wikipedia_summary search fetch q = none ∧
        wikiFetchedTitles search q = []) ∧
    (∀ t ts, search (cleanQuery q) = some (t :: ts) →
        wikiFetchedTitles search q = [underscoreTitle t] ∧
        (fetch (underscoreTitle t) = none →
            get_wikipedia_summary search fetch q = none) ∧
        (∀ st ext, fetch (underscoreTitle t) = some (st, ext) → st ≠ 200 →
            get_wikipedia_summary search fetch q = none)) := by
  constructor
  · rintro (hs | hs) <;>
      exact ⟨by unfold get_wikipedia_summary; rw [hs],
             by unfold wikiFetchedTitles; rw [hs]⟩
  · intro t ts hs
    refine ⟨by unfold wikiFetchedTitles; rw [hs], ?_, ?_⟩
    · intro hf
      unfold get_wikipedia_summary
      rw [hs]
      simp [hf]
    · intro st ext hf hne
      unfold get_wikipedia_summary
      rw [hs]
      simp [hf, hne]

theorem c7_wiki_absent_witness :
    c7search (cleanQuery "what is love".data) = some ["Something Else".data] ∧
    c7fetch (underscoreTitle "Something Else".data) = some (404, none) ∧
    wikiFetchedTitles c7search "what is love".data =
      [underscoreTitle "Something Else".data] ∧
    get_wikipedia_summary c7search c7fetch "what is love".data = none :=
  ⟨rfl, by decide,
   ((c7_wiki_absent c7search c7fetch "what is love".data).2
      "Something Else".data [] rfl).1,
   ((c7_wiki_absent c7search c7fetch "what is love".data).2
      "Something Else".data [] rfl).2.2 404 none (by decide) (by decide)⟩

/-! ## Claim theorems: C2, C10 (chatbot context assembly), C3 (Policy A) -/

/-- The accumulator is a prefix of the `get_all_documents` fold. -/
theorem getAllDocs_extends_acc (xs : List PyStr) :
    ∀ acc : PyStr, acc <+: xs.foldl (fun a t => a ++ t ++ ['\n']) acc := by
  induction xs with
  | nil => intro acc; simp
  | cons x xs ih =>
    intro acc
    rw [List.foldl_cons]
    have h1 : acc <+: acc ++ x ++ ['\n'] := by
      rw [List.append_assoc]
      exact List.prefix_append _ _
    exact h1.trans (ih (acc ++ x ++ ['\n']))

/-- Every stored document's full text occurs inside the
`get_all_documents` fold, whatever the accumulator. -/
theorem docText_in_getAllDocs (xs : List PyStr) :
    ∀ (t acc : PyStr), t ∈ xs → t <:+: xs.foldl (fun a x => a ++ x ++ ['\n']) acc := by
  induction xs with
  | nil => intro t acc h; cases h
  | cons x xs ih =>
    intro t acc h
    rw [List.foldl_cons]
    rcases List.mem_cons.mp h with rfl | hmem
    · have h1 : t <:+: acc ++ t ++ ['\n'] := ⟨acc, ['\n'], rfl⟩
      exact h1.trans (getAllDocs_extends_acc xs (acc ++ t ++ ['\n'])).isInfix
    · exact ih t _ hmem

/-- C2: under the chatbot's merge-all assembly, `combined_context` is
exactly the concatenation of the present labeled blocks in the fixed order
Wikipedia, News, Web, Documents, each present result prefixed by its label
and absent (falsy) results skipped — the sequential build of
src/app.py lines 207-215 refines the spec's ordered-merge description. -/
theorem c2_label_order (w n s : Option PyStr) (q : PyStr) (texts : List PyStr) :
    chatbotCombined w n s q (get_all_documents texts) =
      concatBlocks
        [if pyTruthy w then some (WIKI_LABEL ++ w.getD [] ++ NL2) else none,
         if pyTruthy n then some (NEWS_LABEL ++ n.getD [] ++ NL2) else none,
         if pyTruthy s then some (SERPER_LABEL ++ s.getD [] ++ NL2) else none,
         if substrCI q (get_all_documents texts) then
           some (DOC_LABEL ++ get_all_documents texts) else none] := by
  generalize get_all_documents texts = d
  cases hw : pyTruthy w <;> cases hn : pyTruthy n <;> cases hs : pyTruthy s <;>
    by_cases hd : substrCI q d <;>
      simp [chatbotCombined, chatbotWNS, concatBlocks, hw, hn, hs, hd,
        List.filterMap, List.append_assoc]

/-- C10: in chatbot mode the documents section is appended iff the entire
translated query occurs case-insensitively in the concatenation of all
stored documents, and when appended it carries that full concatenation —
every stored document's text is included, matching or not. -/
theorem c10_doc_branch (w n s : Option PyStr) (q : PyStr) (texts : List PyStr) :
    (substrCI q (get_all_documents texts) →
        chatbotCombined w n s q (get_all_documents texts) =
          chatbotWNS w n s ++ DOC_LABEL ++ get_all_documents texts) ∧
    (¬ substrCI q (get_all_documents texts) →
        chatbotCombined w n s q (get_all_documents texts) = chatbotWNS w n s) ∧
    (∀ t ∈ texts, t <:+: get_all_documents texts) := by
  refine ⟨?_, ?_, ?_⟩
  · intro hd
    unfold chatbotCombined
    rw [if_pos hd]
  · intro hd
    unfold chatbotCombined
    rw [if_neg hd]
  · intro t ht
    exact docText_in_getAllDocs texts t [] ht

theorem c10_doc_branch_witness :
    substrCI "refund policy".data
      (get_all_documents ["Our refund policy is strict.".data]) ∧
    chatbotCombined none none none "refund policy".data
        (get_all_documents ["Our refund policy is strict.".data]) =
      chatbotWNS none none none ++ DOC_LABEL ++
        get_all_documents ["Our refund policy is strict.".data] ∧
    "Our refund policy is strict.".data <:+:
      get_all_documents ["Our refund policy is strict.".data] :=
  ⟨by decide,
   (c10_doc_branch none none none "refund policy".data
      ["Our refund policy is strict.".data]).1 (by decide),
   (c10_doc_branch none none none "refund policy".data
      ["Our refund policy is strict.".data]).2.2 _ (by simp)⟩

/-- C3 (spec-modelled): under Policy A, an informational query consults the
encyclopedia provider only — the consulted-provider list is exactly
`[encyclopedia]`, so neither the news nor the web provider is called, and
the assembled context is whatever the encyclopedia provider returned. -/
theorem c3_policyA_informational (wiki news web : PyStr → Option PyStr)
    (q : PyStr) (h : isInformational q = true) :
    (policyA wiki news web q).2 = [Provider.encyclopedia] ∧
    Provider.news ∉ (policyA wiki news web q).2 ∧
    Provider.web ∉ (policyA wiki news web q).2 ∧
    (policyA wiki news web q).1 = wiki q := by
  refine ⟨?_, ?_, ?_, ?_⟩ <;> simp [policyA, h]

theorem c3_policyA_informational_witness :
    isInformational "what is photosynthesis".data = true ∧
    ((policyA (fun _ => some "Plants convert light.".data) (fun _ => none)
         (fun _ => none) "what is photosynthesis".data).2 =
       [Provider.encyclopedia] ∧
     Provider.news ∉ (policyA (fun _ => some "Plants convert light.".data)
         (fun _ => none) (fun _ => none) "what is photosynthesis".data).2 ∧
     Provider.web ∉ (policyA (fun _ => some "Plants convert light.".data)
         (fun _ => none) (fun _ => none) "what is photosynthesis".data).2 ∧
     (policyA (fun _ => some "Plants convert light.".data) (fun _ => none)
         (fun _ => none) "what is photosynthesis".data).1 =
       (fun _ => some "Plants convert light.".data) "what is photosynthesis".data) :=
  ⟨by decide,
   c3_policyA_informational (fun _ => some "Plants convert light.".data)
     (fun _ => none) (fun _ => none) "what is photosynthesis".data (by decide)⟩

/-! ## Claim theorems: C8 (document keyword match) -/

/-- Matching an all-literal token list at the start of a text is exactly
the case-folded prefix test. -/
theorem rmatchHere_all_lit (p : List Char) :
    ∀ s : List Char,
      rmatchHere (p.map RTok.lit) s = true ↔ pyLower p <+: pyLower s := by
  induction p with
  | nil =>
    intro s
    simp [rmatchHere, pyLower]
  | cons c cs ih =>
    intro s
    cases s with
    | nil => simp [rmatchHere, pyLower]
    | cons x xs =>
      have ih2 := ih xs
      simp only [pyLower] at ih2
      simp only [pyLower, List.map_cons, rmatchHere, Bool.and_eq_true,
        beq_iff_eq, List.cons_prefix_cons]
      exact and_congr eq_comm ih2

/-- Searching an all-literal token list in a text is exactly the
case-insensitive substring test of the source's spec. -/
theorem rsearch_all_lit (p : List Char) :
    ∀ s : List Char, rsearch (p.map RTok.lit) s = true ↔ substrCI p s := by
  intro s
  induction s with
  | nil =>
    simp only [rsearch, substrCI, pyLower, List.map_nil, List.infix_nil]
    rw [rmatchHere_all_lit]
    simp [pyLower]
  | cons x xs ih =>
    simp only [rsearch, Bool.or_eq_true, ih, substrCI, pyLower, List.map_cons,
      List.infix_cons_iff]
    rw [rmatchHere_all_lit]
    simp [pyLower]

/-- C8 counterexample: the Document Q&A keyword variant does not test the
first 40 query characters as a literal substring — it feeds them to
`re.search` as a regular expression.  For the query "a.c" and a single
stored document with text "abc", the document is included (the `.` matches
`b`) and the assembled context is that document's text, even though "a.c"
does not occur as a (case-insensitive) substring of "abc". -/
theorem c8_counterexample :
    docQAContextAll "a.c".data [("doc1".data, "abc".data)] = some "abc".data ∧
    ¬ substrCI (("a.c".data : PyStr).take 40) "abc".data ∧
    ¬ substrCI "a.c".data "abc".data := by
  refine ⟨by decide, by decide, by decide⟩

/-- C8 amended: document selection treats the first 40 characters of the
normalized query as a Python regular expression (case-insensitive), not as
a literal substring.  Whenever those characters contain no regex
metacharacter, the regex search coincides with the case-insensitive
substring test, and the assembled context is then the blank-line join of
the full texts of exactly the substring-matching documents. -/
theorem c8_keyword_match (q : PyStr) (docs : List (PyStr × PyStr))
    (h : (q.take 40).all (fun c => !(REGEX_META.contains c)) = true) :
    docQAContextAll q docs =
      some (pyJoin NL2
        ((docs.filter (fun d => decide (substrCI (q.take 40) d.2))).map
          (fun d => d.2))) := by
  have hdotmem : ('.' ∈ REGEX_META) := by decide
  have hnodot : ∀ c ∈ q.take 40, (c == '.') = false := by
    intro c hc
    rw [List.all_eq_true] at h
    have := h c hc
    simp only [Bool.not_eq_true'] at this
    rcases eq_or_ne c '.' with rfl | hne
    · exact absurd this (by simp [hdotmem])
    · simp [hne]
  have hall : (q.take 40).all (fun c => c == '.' || !(REGEX_META.contains c)) = true := by
    rw [List.all_eq_true] at h ⊢
    intro c hc
    rw [h c hc]
    simp
  have hcompile : compilePattern (q.take 40) = some ((q.take 40).map RTok.lit) := by
    unfold compilePattern
    rw [if_pos hall]
    congr 1
    apply List.map_congr_left
    intro c hc
    rw [hnodot c hc]
    simp
  have hfilter : docs.filter (fun d => rsearch ((q.take 40).map RTok.lit) d.2)
      = docs.filter (fun d => decide (substrCI (q.take 40) d.2)) := by
    apply List.filter_congr
    intro d _
    rw [Bool.eq_iff_iff, rsearch_all_lit]
    simp [decide_eq_true_eq]
  unfold docQAContextAll
  rw [hcompile]
  show some (pyJoin NL2 ((docs.filter
      (fun d => rsearch ((q.take 40).map RTok.lit) d.2)).map (fun d => d.2))) = _
  rw [hfilter]

theorem c8_keyword_match_witness :
    (("refund policy".data : PyStr).take 40).all
        (fun c => !(REGEX_META.contains c)) = true ∧
    docQAContextAll "refund policy".data
        [("a".data, "Our refund policy is strict.".data),
         ("b".data, "Shipping takes two days.".data)] =
      some (pyJoin NL2
        (([("a".data, "Our refund policy is strict.".data),
           ("b".data, "Shipping takes two days.".data)].filter
            (fun d => decide (substrCI (("refund policy".data : PyStr).take 40) d.2))).map
          (fun d => d.2))) :=
  ⟨by decide,
   c8_keyword_match "refund policy".data
     [("a".data, "Our refund policy is strict.".data),
      ("b".data, "Shipping takes two days.".data)] (by decide)⟩
